import Mathlib

/-!
Verification development for the movie-recommendation backend
(`alx-project-nexus`): a shallow embedding of the data model
(`apps/movies/models.py`), the recommendation service
(`apps/movies/services/recommendation_service.py`), the TMDb client
(`apps/movies/services/tmdb_service.py`), the favorite endpoints and the
auth-tiered response cache (`apps/movies/views.py`), together with proofs
about them.

Modelling conventions:
- Django `DecimalField` values (`vote_average`, `popularity`) are `Option ℚ`
  (`none` = SQL NULL).  Python truthiness of a `Decimal` is falsity exactly
  at 0, of `None` always, of a string/list/dict exactly at emptiness.
- A queryset `order_by('-popularity', '-vote_average')` on PostgreSQL sorts
  descending with NULLs first; `sortByPopVote` below realises it as a sort
  under the boolean comparator `movieLe`.
- Database/network failures are injected through explicit `Except`-valued
  oracle fields standing for the individual queries a method issues; `ok`
  components mean the query succeeds with the given rows.
-/

/-- Row of the `Movie` table (`apps/movies/models.py`, class `Movie`).
`genre_ids` is a `JSONField(default=list)` and hence always a list. -/
structure Movie where
  id : Nat
  tmdb_id : Int
  title : String
  overview : Option String
  release_date : Option String
  poster_path : Option String
  backdrop_path : Option String
  vote_average : Option ℚ
  vote_count : Int
  popularity : Option ℚ
  genre_ids : List Int
  original_language : Option String
deriving Repr, DecidableEq

/-- Model of `Movie.full_poster_url`: `if self.poster_path: return base + path` —
Python truthiness of the string, so `None` and `""` both give `None`. -/
def fullPosterUrl (m : Movie) : Option String :=
  match m.poster_path with
  | some p => if p ≠ "" then some ("https://image.tmdb.org/t/p/w500" ++ p) else none
  | none => none

/-- Model of `Movie.full_backdrop_url`. -/
def fullBackdropUrl (m : Movie) : Option String :=
  match m.backdrop_path with
  | some p => if p ≠ "" then some ("https://image.tmdb.org/t/p/w1280" ++ p) else none
  | none => none

/-- The dictionary shape produced by `RecommendationService._movie_to_dict`
and `_tmdb_result_to_dict`.  Fields that one of the two producers can omit
or set to `None` are `Option`s; `id` is absent (`none`) in provider-sourced
dictionaries. -/
structure MovieDict where
  id : Option Nat
  tmdb_id : Option Int
  title : Option String
  overview : Option String
  release_date : Option String
  poster_path : Option String
  backdrop_path : Option String
  vote_average : Option ℚ
  vote_count : Option Int
  popularity : Option ℚ
  genre_ids : List Int
  original_language : Option String
  poster_url : Option String
  backdrop_url : Option String
deriving Repr, DecidableEq

/-- Python `float(x) if x else None` on a nullable Decimal: `None` and `0` are
falsy, so both map to `None`; any other value is passed through. -/
def pyFloatOrNone (x : Option ℚ) : Option ℚ :=
  match x with
  | none => none
  | some v => if v = 0 then none else some v

/-- Model of `RecommendationService._movie_to_dict`. -/
def movieToDict (m : Movie) : MovieDict :=
  { id := some m.id
    tmdb_id := some m.tmdb_id
    title := some m.title
    overview := m.overview
    release_date := m.release_date
    poster_path := m.poster_path
    backdrop_path := m.backdrop_path
    vote_average := pyFloatOrNone m.vote_average
    vote_count := some m.vote_count
    popularity := pyFloatOrNone m.popularity
    genre_ids := m.genre_ids
    original_language := m.original_language
    poster_url := fullPosterUrl m
    backdrop_url := fullBackdropUrl m }

/-- Value `a` precedes-or-ties `b` in PostgreSQL `ORDER BY col DESC` on a nullable
column: descending, NULLs first. -/
def optDescLe (a b : Option ℚ) : Bool :=
  match a, b with
  | none, _ => true
  | some _, none => false
  | some x, some y => y ≤ x

/-- Comparator realising `order_by('-popularity', '-vote_average')`. -/
def movieLe (m₁ m₂ : Movie) : Bool :=
  if m₁.popularity = m₂.popularity then optDescLe m₁.vote_average m₂.vote_average
  else optDescLe m₁.popularity m₂.popularity

/-- The ordered queryset: popularity descending, then rating descending
(NULLs first within each key, per PostgreSQL `DESC`). -/
def sortByPopVote (l : List Movie) : List Movie :=
  List.insertionSort (fun a b => movieLe a b = true) l

/-- JSON object-key lookup on a stored `genre_ids` value.  Every stored
`genre_ids` is a JSON array (the model's `List Int`, from
`JSONField(default=list)` populated with TMDb genre-id lists), and a JSON
array has no object keys, so any key lookup yields SQL NULL (`none`). -/
def jsonArrayKey (stored : List Int) (key : String) : Option (List Int) :=
  none

/-- Resolution of the program's `genre_ids__overlap=val` filters: `Movie`
declares `genre_ids` as `models.JSONField` (`apps/movies/models.py`), and
Django registers no `overlap` lookup on `JSONField` (array overlap exists
only on `contrib.postgres` `ArrayField`).  `JSONField` resolves the unknown
name silently as a key transform, compiling the filter to
`(genre_ids -> 'overlap') = val`.  The key lookup on an array row is NULL,
so the comparison never holds and the filter matches no rows. -/
def jsonKeyTransformOverlapExact (stored : List Int) (val : List Int) : Bool :=
  jsonArrayKey stored "overlap" == some val

/-- Definition following the spec's words, for comparison with the
program's query: "Tag overlap: set intersection between two movies'
category-tag identifier lists" — genuine array overlap, the semantics the
spec (and the code's own docstrings) intend for the selection. -/
def specTagOverlap (xs ys : List Int) : Bool :=
  xs.any (fun g => ys.contains g)

/-- Definition following the spec's words (§4.2 step 3): "select movies
whose tag set intersects the union, excluding movies already favorited,
ordered by (popularity desc, rating desc), truncated to `limit`", as
dictionaries. -/
def specOverlapSelection (movies : List Movie) (genreIds : List Int)
    (excludeIds : List Int) (limit : Nat) : List MovieDict :=
  ((sortByPopVote (movies.filter
    (fun m => specTagOverlap m.genre_ids genreIds &&
      !(excludeIds.contains m.tmdb_id)))).take limit).map movieToDict

/-- A `FavoriteMovie` row joined with its movie (`select_related('movie')`):
the favoriting user's id and the movie row. -/
structure FavoriteRow where
  userId : Nat
  movie : Movie
deriving Repr, DecidableEq

/-- The fallible queries `RecommendationService.get_user_recommendations`
and `_get_popular_fallback` issue against the data layer.  An `error`
component stands for that query raising (e.g. a database error); `ok` is the
rows it returns. -/
structure RecOracle where
  favQuery : Except String (List FavoriteRow)
  movieQuery : Except String (List Movie)
  fallbackQuery : Except String (List Movie)

/-- Model of `RecommendationService._get_popular_fallback`: top `limit` movies by
`order_by('-popularity', '-vote_average')`, converted to dictionaries. -/
def getPopularFallbackE (o : RecOracle) (limit : Nat) : Except String (List MovieDict) :=
  match o.fallbackQuery with
  | Except.error e => Except.error e
  | Except.ok ms => Except.ok (((sortByPopVote ms).take limit).map movieToDict)

/-- The `try`-block body of
`RecommendationService.get_user_recommendations`: load favorites (empty →
fallback), union genre ids (empty → fallback), else the
`genre_ids__overlap` query (which on the `JSONField` resolves to a
key-transform comparison, `jsonKeyTransformOverlapExact`, matching no
rows) excluding favorited `tmdb_id`s, ordered and truncated. -/
def recommendTryBody (o : RecOracle) (user : Nat) (limit : Nat) :
    Except String (List MovieDict) :=
  match o.favQuery with
  | Except.error e => Except.error e
  | Except.ok allFavs =>
    let favs := allFavs.filter (fun f => f.userId == user)
    if favs.isEmpty then
      getPopularFallbackE o limit
    else
      let genreIds := favs.flatMap (fun f => f.movie.genre_ids)
      let favoriteMovieIds := favs.map (fun f => f.movie.tmdb_id)
      if genreIds.isEmpty then
        getPopularFallbackE o limit
      else
        match o.movieQuery with
        | Except.error e => Except.error e
        | Except.ok movies =>
          let selected := movies.filter
            (fun m => jsonKeyTransformOverlapExact m.genre_ids genreIds &&
              !(favoriteMovieIds.contains m.tmdb_id))
          Except.ok (((sortByPopVote selected).take limit).map movieToDict)

/-- Model of `RecommendationService.get_user_recommendations`: the `try` body, with
`except Exception` replacing any raised error by a fresh (unprotected) call
to `_get_popular_fallback`. -/
def getUserRecommendationsE (o : RecOracle) (user : Nat) (limit : Nat) :
    Except String (List MovieDict) :=
  match recommendTryBody o user limit with
  | Except.ok r => Except.ok r
  | Except.error _ => getPopularFallbackE o limit

/-- The error-free oracle over a concrete database state: every query
succeeds and reads the given tables. -/
def dbOracle (movies : List Movie) (favorites : List FavoriteRow) : RecOracle :=
  { favQuery := Except.ok favorites
    movieQuery := Except.ok movies
    fallbackQuery := Except.ok movies }

/-- Model of `get_user_recommendations` on a healthy database. -/
def getUserRecommendations (movies : List Movie) (favorites : List FavoriteRow)
    (user : Nat) (limit : Nat) : List MovieDict :=
  match getUserRecommendationsE (dbOracle movies favorites) user limit with
  | Except.ok r => r
  | Except.error _ => []

/-- One element of a TMDb `results` list, with the fields
`_tmdb_result_to_dict` reads via `result.get(...)` — each may be absent. -/
structure TmdbResult where
  id : Option Int
  title : Option String
  overview : Option String
  release_date : Option String
  poster_path : Option String
  backdrop_path : Option String
  vote_average : Option ℚ
  vote_count : Option Int
  popularity : Option ℚ
  genre_ids : Option (List Int)
  original_language : Option String
deriving Repr, DecidableEq

/-- Python `f"...w500{p}" if result.get('poster_path') else None` — truthiness of
the optional string. -/
def tmdbUrl (base : String) (p : Option String) : Option String :=
  match p with
  | some s => if s ≠ "" then some (base ++ s) else none
  | none => none

/-- Model of `RecommendationService._tmdb_result_to_dict`: provider fields passed
through raw (no Decimal-truthiness rewriting), `genre_ids` defaulted to
`[]`, no local `id`. -/
def tmdbResultToDict (r : TmdbResult) : MovieDict :=
  { id := none
    tmdb_id := r.id
    title := r.title
    overview := r.overview
    release_date := r.release_date
    poster_path := r.poster_path
    backdrop_path := r.backdrop_path
    vote_average := r.vote_average
    vote_count := r.vote_count
    popularity := r.popularity
    genre_ids := r.genre_ids.getD []
    original_language := r.original_language
    poster_url := tmdbUrl "https://image.tmdb.org/t/p/w500" r.poster_path
    backdrop_url := tmdbUrl "https://image.tmdb.org/t/p/w1280" r.backdrop_path }

/-- A dictionary returned by `TMDbService.get_movie_recommendations`:
the value under `'results'` when that key is present, plus the number of
other keys (which decides Python truthiness of the dictionary). -/
structure TmdbRecResp where
  results? : Option (List TmdbResult)
  otherKeys : Nat
deriving Repr, DecidableEq

/-- Python truthiness of the dictionary: it has at least one key. -/
def tmdbRespTruthy (r : TmdbRecResp) : Bool :=
  r.results?.isSome || r.otherKeys != 0

/-- The fallible calls `RecommendationService.get_similar_movies` makes:
the TMDb fetch (`Optional[Dict]`-valued, may raise), the
`Movie.objects.get(tmdb_id=movie_id)` lookup (`ok none` = `DoesNotExist`,
`error` = any other failure), and the local overlap query. -/
structure SimOracle where
  tmdbRecs : Except String (Option TmdbRecResp)
  movieGet : Except String (Option Movie)
  movieQuery : Except String (List Movie)

/-- The inner local fallback of `get_similar_movies`: look the source movie
up, run the `genre_ids__overlap` query (again the `JSONField` key-transform
resolution, matching no rows) excluding the source `tmdb_id`, ordered and
truncated; `Movie.DoesNotExist` is caught and gives `[]`. -/
def similarLocalFallback (o : SimOracle) (movie_id : Int) (limit : Nat) :
    Except String (List MovieDict) :=
  match o.movieGet with
  | Except.error e => Except.error e
  | Except.ok none => Except.ok []
  | Except.ok (some movie) =>
    match o.movieQuery with
    | Except.error e => Except.error e
    | Except.ok movies =>
      let similar := movies.filter
        (fun m => jsonKeyTransformOverlapExact m.genre_ids movie.genre_ids &&
          !(m.tmdb_id == movie_id))
      Except.ok (((sortByPopVote similar).take limit).map movieToDict)

/-- Model of `RecommendationService.get_similar_movies`: try the provider; a truthy
dictionary containing `'results'` is converted and truncated; otherwise the
local fallback runs; any error raised anywhere in the `try` block (including
a raising provider call) is caught by `except Exception` and yields `[]`. -/
def getSimilarMovies (o : SimOracle) (movie_id : Int) (limit : Nat) : List MovieDict :=
  let body : Except String (List MovieDict) :=
    match o.tmdbRecs with
    | Except.error e => Except.error e
    | Except.ok (some resp) =>
      if tmdbRespTruthy resp && resp.results?.isSome then
        Except.ok (((resp.results?.getD []).take limit).map tmdbResultToDict)
      else
        similarLocalFallback o movie_id limit
    | Except.ok none => similarLocalFallback o movie_id limit
  match body with
  | Except.ok r => r
  | Except.error _ => []

/-- A TMDb search result page (`{'page': …, 'results': …, 'total_pages': …,
'total_results': …}`). -/
structure TmdbPage where
  page : Int
  results : List TmdbResult
  total_pages : Int
  total_results : Int
deriving Repr, DecidableEq

/-- Python whitespace, the class `str.strip()` removes (CPython's
`Py_UNICODE_ISSPACE`): `\t \n \v \f \r`, the file/group/record/unit
separators `\x1c`–`\x1f`, space, NEL `\x85`, no-break space `\xa0`, ogham
space `\x1680`, the Zs range `\x2000`–`\x200a`, line/paragraph separators
`\x2028`/`\x2029`, narrow no-break `\x202f`, medium mathematical `\x205f`,
and ideographic space `\x3000`. -/
def pyIsSpace (c : Char) : Bool :=
  let n := c.toNat
  (0x09 ≤ n && n ≤ 0x0D) || (0x1C ≤ n && n ≤ 0x1F) || n == 0x20 ||
    n == 0x85 || n == 0xA0 || n == 0x1680 || (0x2000 ≤ n && n ≤ 0x200A) ||
    n == 0x2028 || n == 0x2029 || n == 0x202F || n == 0x205F || n == 0x3000

/-- Python `not query.strip()`: after stripping leading/trailing whitespace
the string is empty, i.e. every character is Python whitespace (this also
subsumes `not query`, the empty string). -/
def pyStripEmpty (q : String) : Bool :=
  q.toList.all pyIsSpace

/-- Model of `TMDbService.search_movies`: a blank query short-circuits to the fixed
empty page; otherwise the request `search/movie` is issued with the query
and page (the `request` argument stands for `_make_request`, which may
raise). -/
def searchMovies (request : String → Int → Except String TmdbPage)
    (query : String) (page : Int) : Except String TmdbPage :=
  if query == "" || pyStripEmpty query then
    Except.ok { page := 1, results := [], total_pages := 0, total_results := 0 }
  else
    request query page

/-- Row of the `FavoriteMovie` table, keyed by user id and movie primary
key, with the optional notes text. -/
structure FavoriteMovieRow where
  userId : Nat
  movieId : Nat
  notes : String
deriving Repr, DecidableEq

/-- An HTTP response of the favorite endpoints: status code and the
`detail` message when one is returned. -/
structure FavResponse where
  status : Nat
  detail : Option String
deriving Repr, DecidableEq

/-- Model of `MovieViewSet.favorite` (POST): `get_or_create` on `(user, movie)` —
under the `unique_together [['user', 'movie']]` constraint an existing row
means `created=False`, a 400 response and no new row; otherwise the row is
inserted and 201 returned.  The movie itself was already resolved by
`get_object`. -/
def favoriteAction (favs : List FavoriteMovieRow) (userId movieId : Nat)
    (notes : String) : FavResponse × List FavoriteMovieRow :=
  if favs.any (fun f => f.userId == userId && f.movieId == movieId) then
    ({ status := 400, detail := some "Movie is already in your favorites." }, favs)
  else
    ({ status := 201, detail := none },
     favs ++ [{ userId := userId, movieId := movieId, notes := notes }])

/-- Model of `MovieViewSet.remove_favorite` (DELETE): delete all rows for
`(user, movie)`; 404 when none existed, else 204. -/
def removeFavoriteAction (favs : List FavoriteMovieRow) (userId movieId : Nat) :
    FavResponse × List FavoriteMovieRow :=
  let remaining := favs.filter (fun f => !(f.userId == userId && f.movieId == movieId))
  if remaining.length == favs.length then
    ({ status := 404, detail := some "Movie was not in your favorites." }, favs)
  else
    ({ status := 204, detail := none }, remaining)

/-- At most one `FavoriteMovie` row per `(user, movie)` pair — the
`unique_together` invariant. -/
def favUnique (favs : List FavoriteMovieRow) : Prop :=
  List.Pairwise (fun a b => ¬(a.userId = b.userId ∧ a.movieId = b.movieId)) favs

/-- Serialized response data (`response.data`), modelled as a JSON-object
surrogate: an association list of string fields.  Python truthiness of a
dict is non-emptiness. -/
abbrev PyData := List (String × String)

/-- Python truthiness of response data. -/
def pyDataTruthy (d : PyData) : Bool :=
  !d.isEmpty

/-- A DRF `Response`: status code and data payload. -/
structure HResp where
  status : Nat
  data : PyData
deriving Repr, DecidableEq

/-- The shared cache: key ↦ (data, timeout-as-stored).  A timeout of `none`
is Django's `timeout=None`, meaning the entry never expires; `some t` means
it expires after `t` seconds.  `cache.set` prepends, `cache.get` reads the
most recent binding. -/
abbrev CacheStore := List (String × PyData × Option Nat)

/-- Model of `cache.get`. -/
def cacheGet (s : CacheStore) (k : String) : Option PyData :=
  (s.find? (fun e => e.1 == k)).map (fun e => e.2.1)

/-- Model of `cache.set` with a timeout. -/
def cacheSet (s : CacheStore) (k : String) (d : PyData) (t : Option Nat) : CacheStore :=
  (k, d, t) :: s

/-- The timeout recorded with the current entry for key `k`, when the key
is present. -/
def storedTimeout (s : CacheStore) (k : String) : Option (Option Nat) :=
  (s.find? (fun e => e.1 == k)).map (fun e => e.2.2)

/-- An incoming HTTP request as the cache decorator sees it: whether
`request.user.is_authenticated`, the user id, and `request.get_full_path()`. -/
structure Request where
  userAuth : Bool
  userId : Nat
  fullPath : String
deriving Repr, DecidableEq

/-- Python `f"user_{request.user.id}" if request.user.is_authenticated else "anon"`. -/
def userKeyPart (req : Request) : String :=
  if req.userAuth then "user_" ++ toString req.userId else "anon"

/-- Key `f"view_cache:{user_key}:{request.get_full_path()}"` — the cache key of
`cache_page_on_auth` in `apps/movies/views.py`. -/
def viewCacheKey (req : Request) : String :=
  "view_cache:" ++ userKeyPart req ++ ":" ++ req.fullPath

/-- Model of `cache_page_on_auth(anon_timeout, auth_timeout=None)` from
`apps/movies/views.py`, applied to a view: the walrus test
`if cached_response := cache.get(cache_key)` treats a falsy cached value as
a miss; on a miss the view runs and its data is stored only when the status
is 200, with `auth_timeout` for authenticated callers (passed verbatim to
`cache.set`, so an omitted `auth_timeout` stores with no expiry) and
`anon_timeout` otherwise.  The view is a pure function of the request,
standing for a deterministic upstream under unchanged data. -/
def cache_page_on_auth (anonTimeout : Nat) (authTimeout : Option Nat)
    (view : Request → HResp) (req : Request) (s : CacheStore) : HResp × CacheStore :=
  let key := viewCacheKey req
  let hit : Option PyData :=
    match cacheGet s key with
    | some d => if pyDataTruthy d then some d else none
    | none => none
  match hit with
  | some d => ({ status := 200, data := d }, s)
  | none =>
    let resp := view req
    if resp.status == 200 then
      let t : Option Nat := if req.userAuth then authTimeout else some anonTimeout
      (resp, cacheSet s key resp.data t)
    else
      (resp, s)

/-- The caching wrapper effectively applied to `MovieViewSet.retrieve`: the
class body binds `retrieve` twice, so the second binding wins, and it is
decorated with `@cache_page_on_auth(60 * 15)` — `auth_timeout` omitted and
hence `None`. -/
def retrieveCachedEffective (view : Request → HResp) (req : Request)
    (s : CacheStore) : HResp × CacheStore :=
  cache_page_on_auth (60 * 15) none view req s

/-! ### Order-theoretic facts about the queryset comparator -/

theorem optDescLe_total (a b : Option ℚ) :
    optDescLe a b = true ∨ optDescLe b a = true := by
  rcases a with _ | x <;> rcases b with _ | y <;> simp [optDescLe]
  exact le_total y x

theorem optDescLe_trans {a b c : Option ℚ} (h₁ : optDescLe a b = true)
    (h₂ : optDescLe b c = true) : optDescLe a c = true := by
  rcases a with _ | x <;> rcases b with _ | y <;> rcases c with _ | z <;>
    simp [optDescLe] at *
  exact le_trans h₂ h₁

theorem optDescLe_antisymm {a b : Option ℚ} (h₁ : optDescLe a b = true)
    (h₂ : optDescLe b a = true) : a = b := by
  rcases a with _ | x <;> rcases b with _ | y <;> simp [optDescLe] at *
  exact le_antisymm h₂ h₁

theorem movieLe_total (a b : Movie) : movieLe a b = true ∨ movieLe b a = true := by
  unfold movieLe
  by_cases h : a.popularity = b.popularity
  · rw [if_pos h, if_pos h.symm]
    exact optDescLe_total a.vote_average b.vote_average
  · rw [if_neg h, if_neg (fun hs => h hs.symm)]
    exact optDescLe_total a.popularity b.popularity

theorem movieLe_trans (a b c : Movie) (h₁ : movieLe a b = true)
    (h₂ : movieLe b c = true) : movieLe a c = true := by
  unfold movieLe at *
  by_cases hab : a.popularity = b.popularity <;>
    by_cases hbc : b.popularity = c.popularity
  · rw [if_pos hab] at h₁; rw [if_pos hbc] at h₂
    rw [if_pos (hab.trans hbc)]
    exact optDescLe_trans h₁ h₂
  · rw [if_neg (fun hs => hbc (hab.symm.trans hs))]
    rw [if_neg hbc] at h₂
    rw [hab]; exact h₂
  · rw [if_neg (fun hs => hab (hs.trans hbc.symm))]
    rw [if_neg hab] at h₁
    rw [← hbc]; exact h₁
  · rw [if_neg hab] at h₁; rw [if_neg hbc] at h₂
    by_cases hac : a.popularity = c.popularity
    · exact absurd ((hac ▸ optDescLe_antisymm h₂) (hac ▸ h₁)).symm hab
    · rw [if_neg hac]; exact optDescLe_trans h₁ h₂

theorem sortByPopVote_sorted (l : List Movie) :
    List.Pairwise (fun a b => movieLe a b = true) (sortByPopVote l) := by
  exact @List.sorted_insertionSort Movie (fun a b => movieLe a b = true) _
    ⟨movieLe_total⟩ ⟨movieLe_trans⟩ l

theorem mem_sortByPopVote {m : Movie} {l : List Movie} :
    m ∈ sortByPopVote l ↔ m ∈ l :=
  (List.perm_insertionSort (fun a b => movieLe a b = true) l).mem_iff

/-! ### Cache-store helper lemmas -/

theorem cacheGet_cacheSet_self (s : CacheStore) (k : String) (d : PyData)
    (t : Option Nat) : cacheGet (cacheSet s k d t) k = some d := by
  simp [cacheGet, cacheSet]

theorem cacheGet_cacheSet_other (s : CacheStore) {k k' : String} (h : k ≠ k')
    (d : PyData) (t : Option Nat) :
    cacheGet (cacheSet s k d t) k' = cacheGet s k' := by
  have hb : (k == k') = false := beq_eq_false_iff_ne.mpr h
  simp [cacheGet, cacheSet, List.find?_cons, hb]

theorem storedTimeout_cacheSet_self (s : CacheStore) (k : String) (d : PyData)
    (t : Option Nat) : storedTimeout (cacheSet s k d t) k = some t := by
  simp [storedTimeout, cacheSet]

theorem storedTimeout_cacheSet_other (s : CacheStore) {k k' : String}
    (h : k ≠ k') (d : PyData) (t : Option Nat) :
    storedTimeout (cacheSet s k d t) k' = storedTimeout s k' := by
  have hb : (k == k') = false := beq_eq_false_iff_ne.mpr h
  simp [storedTimeout, cacheSet, List.find?_cons, hb]

/-- A truthy cached value is returned as a fresh 200 response, the store
untouched. -/
theorem cache_page_on_auth_hit (anonT : Nat) (authT : Option Nat)
    (view : Request → HResp) (req : Request) (s : CacheStore) (d : PyData)
    (h : cacheGet s (viewCacheKey req) = some d) (ht : pyDataTruthy d = true) :
    cache_page_on_auth anonT authT view req s = ({ status := 200, data := d }, s) := by
  simp [cache_page_on_auth, h, ht]

/-- On an absent key the view runs; a 200 result is stored with the
authenticated timeout for authenticated callers, else the anonymous one;
non-200 results are not stored. -/
theorem cache_page_on_auth_missNone (anonT : Nat) (authT : Option Nat)
    (view : Request → HResp) (req : Request) (s : CacheStore)
    (h : cacheGet s (viewCacheKey req) = none) :
    cache_page_on_auth anonT authT view req s =
      (view req,
       if (view req).status == 200 then
         cacheSet s (viewCacheKey req) (view req).data
           (if req.userAuth then authT else some anonT)
       else s) := by
  simp only [cache_page_on_auth, h]
  split
  · simp_all
  · first
      | rfl
      | (split <;> rfl)

/-- A falsy cached value is treated exactly like a miss (the walrus
truthiness test). -/
theorem cache_page_on_auth_missFalsy (anonT : Nat) (authT : Option Nat)
    (view : Request → HResp) (req : Request) (s : CacheStore) (d : PyData)
    (h : cacheGet s (viewCacheKey req) = some d) (ht : pyDataTruthy d = false) :
    cache_page_on_auth anonT authT view req s =
      (view req,
       if (view req).status == 200 then
         cacheSet s (viewCacheKey req) (view req).data
           (if req.userAuth then authT else some anonT)
       else s) := by
  simp only [cache_page_on_auth, h, ht]
  split
  · simp_all
  · first
      | rfl
      | (split <;> rfl)

/-- Authenticated and anonymous callers always use distinct cache keys:
the identity segment starts `user_` in one and `anon` in the other. -/
theorem viewCacheKey_auth_ne_anon {reqA reqB : Request}
    (hA : reqA.userAuth = true) (hB : reqB.userAuth = false) :
    viewCacheKey reqA ≠ viewCacheKey reqB := by
  intro h
  have hd := congrArg String.data h
  unfold viewCacheKey userKeyPart at hd
  rw [hA, hB] at hd
  simp only [if_true, if_false, String.data_append, List.append_assoc] at hd
  have h2 := List.append_cancel_left hd
  have h3 : some 'u' = some 'a' := congrArg List.head? h2
  exact absurd (Option.some.inj h3) (by decide)

/-- Two consecutive calls through the wrapper with the same request, view
and starting store return the same payload. -/
theorem cache_page_on_auth_second_data (anonT : Nat) (authT : Option Nat)
    (view : Request → HResp) (req : Request) (s : CacheStore) :
    (cache_page_on_auth anonT authT view req
        ((cache_page_on_auth anonT authT view req s).2)).1.data =
      (cache_page_on_auth anonT authT view req s).1.data := by
  cases hget : cacheGet s (viewCacheKey req) with
  | some d =>
    cases ht : pyDataTruthy d with
    | true => rw [cache_page_on_auth_hit anonT authT view req s d hget ht,
        cache_page_on_auth_hit anonT authT view req s d hget ht]
    | false =>
      rw [cache_page_on_auth_missFalsy anonT authT view req s d hget ht]
      cases hst : ((view req).status == 200) with
      | true =>
        simp only [hst, if_true]
        cases ht2 : pyDataTruthy (view req).data with
        | true =>
          rw [cache_page_on_auth_hit anonT authT view req _ (view req).data
            (cacheGet_cacheSet_self _ _ _ _) ht2]
        | false =>
          rw [cache_page_on_auth_missFalsy anonT authT view req _ (view req).data
            (cacheGet_cacheSet_self _ _ _ _) ht2]
      | false =>
        simp only [hst, Bool.false_eq_true, if_false]
        rw [cache_page_on_auth_missFalsy anonT authT view req s d hget ht]
  | none =>
    rw [cache_page_on_auth_missNone anonT authT view req s hget]
    cases hst : ((view req).status == 200) with
    | true =>
      simp only [hst, if_true]
      cases ht2 : pyDataTruthy (view req).data with
      | true =>
        rw [cache_page_on_auth_hit anonT authT view req _ (view req).data
          (cacheGet_cacheSet_self _ _ _ _) ht2]
      | false =>
        rw [cache_page_on_auth_missFalsy anonT authT view req _ (view req).data
          (cacheGet_cacheSet_self _ _ _ _) ht2]
    | false =>
      simp only [hst, Bool.false_eq_true, if_false]
      rw [cache_page_on_auth_missNone anonT authT view req s hget]

/-! ### Claim theorems -/

/-- C4 counterexample: for the effective `retrieve` decoration
(`@cache_page_on_auth(60 * 15)` — the second, surviving binding of
`retrieve`, which omits `auth_timeout`): after an authenticated miss the
entry is stored with timeout `None`, i.e. no expiry — not a timeout shorter
than the anonymous 900 s — and the anonymous key is still absent from the
store, so an anonymous call to the same resource cannot share the
authenticated call's miss (the keys differ), and it stores its own entry
with 900 s. -/
theorem retrieve_cache_tiering_counterexample :
    storedTimeout ((retrieveCachedEffective
        (fun _ => HResp.mk 200 [("title", "X")])
        (Request.mk true 7 "/api/movies/5/") []).2)
      (viewCacheKey (Request.mk true 7 "/api/movies/5/")) = some none ∧
    cacheGet ((retrieveCachedEffective
        (fun _ => HResp.mk 200 [("title", "X")])
        (Request.mk true 7 "/api/movies/5/") []).2)
      (viewCacheKey (Request.mk false 0 "/api/movies/5/")) = none ∧
    storedTimeout ((retrieveCachedEffective
        (fun _ => HResp.mk 200 [("title", "X")])
        (Request.mk false 0 "/api/movies/5/")
        ((retrieveCachedEffective (fun _ => HResp.mk 200 [("title", "X")])
          (Request.mk true 7 "/api/movies/5/") []).2)).2)
      (viewCacheKey (Request.mk false 0 "/api/movies/5/")) = some (some 900) :=
  ⟨rfl, rfl, rfl⟩

/-- C4 (amended): for the effective cached `retrieve` endpoint, the cache
key includes the caller identity, so an authenticated and an anonymous call
to the same resource use distinct keys and each incurs its own miss; after
both misses both observe identical content (the same compute on unchanged
upstream data), the anonymous entry expires after 900 seconds and the
authenticated entry is stored with `None`, i.e. never expires — the
authenticated timeout is not shorter. -/
theorem retrieve_cache_tiering_spec (view : Request → HResp)
    (reqA reqB : Request) (s : CacheStore)
    (hA : reqA.userAuth = true) (hB : reqB.userAuth = false)
    (hmissA : cacheGet s (viewCacheKey reqA) = none)
    (hmissB : cacheGet s (viewCacheKey reqB) = none)
    (hview : view reqA = view reqB) (hstatus : (view reqA).status = 200) :
    viewCacheKey reqA ≠ viewCacheKey reqB ∧
    (retrieveCachedEffective view reqA s).1.data =
      (retrieveCachedEffective view reqB
        ((retrieveCachedEffective view reqA s).2)).1.data ∧
    storedTimeout ((retrieveCachedEffective view reqB
        ((retrieveCachedEffective view reqA s).2)).2)
      (viewCacheKey reqA) = some none ∧
    storedTimeout ((retrieveCachedEffective view reqB
        ((retrieveCachedEffective view reqA s).2)).2)
      (viewCacheKey reqB) = some (some (60 * 15)) := by
  have hne : viewCacheKey reqA ≠ viewCacheKey reqB :=
    viewCacheKey_auth_ne_anon hA hB
  have hstA : ((view reqA).status == 200) = true := by simp [hstatus]
  have hstB : ((view reqB).status == 200) = true := by rw [← hview]; exact hstA
  have hcallA : retrieveCachedEffective view reqA s =
      (view reqA, cacheSet s (viewCacheKey reqA) (view reqA).data none) := by
    unfold retrieveCachedEffective
    rw [cache_page_on_auth_missNone _ _ _ _ _ hmissA, hstA, hA]
    simp
  have hmissB' : cacheGet (cacheSet s (viewCacheKey reqA) (view reqA).data none)
      (viewCacheKey reqB) = cacheGet s (viewCacheKey reqB) :=
    cacheGet_cacheSet_other s hne _ _
  have hcallB : retrieveCachedEffective view reqB
      (cacheSet s (viewCacheKey reqA) (view reqA).data none) =
      (view reqB, cacheSet (cacheSet s (viewCacheKey reqA) (view reqA).data none)
        (viewCacheKey reqB) (view reqB).data (some (60 * 15))) := by
    unfold retrieveCachedEffective
    rw [cache_page_on_auth_missNone _ _ _ _ _ (hmissB'.trans hmissB), hstB, hB]
    simp
  refine ⟨hne, ?_, ?_, ?_⟩
  · rw [hcallA]
    dsimp only
    rw [hcallB]
    exact congrArg HResp.data hview
  · rw [hcallA]
    dsimp only
    rw [hcallB]
    dsimp only
    rw [storedTimeout_cacheSet_other _ (Ne.symm hne),
      storedTimeout_cacheSet_self]
  · rw [hcallA]
    dsimp only
    rw [hcallB]
    dsimp only
    rw [storedTimeout_cacheSet_self]

/-- Witness for C4 (amended) at concrete authenticated/anonymous requests
for the same path over an empty store. -/
theorem retrieve_cache_tiering_spec_witness :
    (Request.mk true 7 "/api/movies/5/").userAuth = true ∧
    (Request.mk false 0 "/api/movies/5/").userAuth = false ∧
    (viewCacheKey (Request.mk true 7 "/api/movies/5/") ≠
        viewCacheKey (Request.mk false 0 "/api/movies/5/") ∧
      (retrieveCachedEffective (fun _ => HResp.mk 200 [("title", "X")])
          (Request.mk true 7 "/api/movies/5/") []).1.data =
        (retrieveCachedEffective (fun _ => HResp.mk 200 [("title", "X")])
          (Request.mk false 0 "/api/movies/5/")
          ((retrieveCachedEffective (fun _ => HResp.mk 200 [("title", "X")])
            (Request.mk true 7 "/api/movies/5/") []).2)).1.data ∧
      storedTimeout ((retrieveCachedEffective
          (fun _ => HResp.mk 200 [("title", "X")])
          (Request.mk false 0 "/api/movies/5/")
          ((retrieveCachedEffective (fun _ => HResp.mk 200 [("title", "X")])
            (Request.mk true 7 "/api/movies/5/") []).2)).2)
        (viewCacheKey (Request.mk true 7 "/api/movies/5/")) = some none ∧
      storedTimeout ((retrieveCachedEffective
          (fun _ => HResp.mk 200 [("title", "X")])
          (Request.mk false 0 "/api/movies/5/")
          ((retrieveCachedEffective (fun _ => HResp.mk 200 [("title", "X")])
            (Request.mk true 7 "/api/movies/5/") []).2)).2)
        (viewCacheKey (Request.mk false 0 "/api/movies/5/")) =
          some (some (60 * 15))) :=
  ⟨rfl, rfl,
   retrieve_cache_tiering_spec (fun _ => HResp.mk 200 [("title", "X")])
     (Request.mk true 7 "/api/movies/5/") (Request.mk false 0 "/api/movies/5/")
     [] rfl rfl rfl rfl rfl rfl⟩

/-- C5 counterexample: a miss whose compute returns a non-200 response is
returned to the caller but NOT stored under the cache key — refuting the
unconditional "on a miss it … stores the result under the cache key". -/
theorem cache_wrapper_non200_counterexample :
    cacheGet ([] : CacheStore)
      (viewCacheKey (Request.mk false 0 "/api/movies/9/")) = none ∧
    cache_page_on_auth 900 (some 300)
      (fun _ => HResp.mk 404 [("detail", "Not found.")])
      (Request.mk false 0 "/api/movies/9/") [] =
      (HResp.mk 404 [("detail", "Not found.")], []) :=
  ⟨rfl, rfl⟩

/-- C5 (amended): on a truthy cache hit the wrapper returns the stored
value unchanged; on a miss it invokes the wrapped compute and returns its
result, storing it under the cache key — with the authenticated timeout for
authenticated callers, else the anonymous timeout — only when the status is
200; and two consecutive calls with identical key and unchanged upstream
data (the same pure `view`) return identical payloads. -/
theorem cache_wrapper_spec (anonT : Nat) (authT : Option Nat)
    (view : Request → HResp) (req : Request) (s : CacheStore) :
    (∀ d, cacheGet s (viewCacheKey req) = some d → pyDataTruthy d = true →
      cache_page_on_auth anonT authT view req s =
        ({ status := 200, data := d }, s)) ∧
    (cacheGet s (viewCacheKey req) = none →
      cache_page_on_auth anonT authT view req s =
        (view req,
         if (view req).status == 200 then
           cacheSet s (viewCacheKey req) (view req).data
             (if req.userAuth then authT else some anonT)
         else s)) ∧
    (cache_page_on_auth anonT authT view req
        ((cache_page_on_auth anonT authT view req s).2)).1.data =
      (cache_page_on_auth anonT authT view req s).1.data :=
  ⟨fun d h ht => cache_page_on_auth_hit anonT authT view req s d h ht,
   fun h => cache_page_on_auth_missNone anonT authT view req s h,
   cache_page_on_auth_second_data anonT authT view req s⟩

/-- Witness for C5 (amended): an anonymous miss over the empty store with a
200 compute is stored with the anonymous timeout and both consecutive calls
return the computed payload. -/
theorem cache_wrapper_spec_witness :
    cacheGet ([] : CacheStore)
      (viewCacheKey (Request.mk false 3 "/api/movies/2/")) = none ∧
    cache_page_on_auth 900 (some 300) (fun _ => HResp.mk 200 [("a", "b")])
      (Request.mk false 3 "/api/movies/2/") [] =
      (HResp.mk 200 [("a", "b")],
       if (HResp.mk 200 [("a", "b")]).status == 200 then
         cacheSet [] (viewCacheKey (Request.mk false 3 "/api/movies/2/"))
           (HResp.mk 200 [("a", "b")]).data
           (if (Request.mk false 3 "/api/movies/2/").userAuth then some 300
            else some 900)
       else []) :=
  ⟨rfl,
   (cache_wrapper_spec 900 (some 300) (fun _ => HResp.mk 200 [("a", "b")])
     (Request.mk false 3 "/api/movies/2/") []).2.1 rfl⟩

/-- C1 code-bug exhibit, at the spec's own §8 example: user 1 favorited
movie A (genres {1,2}); the catalog holds X (genres {2,4}, not favorited)
and Y (genres {5}).  The spec's described selection returns X, but the
program's `Movie.objects.filter(genre_ids__overlap=[1,2])` is resolved on
the `JSONField` as `(genre_ids -> 'overlap') = [1,2]`, matches no rows, and
`get_user_recommendations` returns the empty list (no exception is raised,
so the fallback is not used either) — contradicting the code's own
docstring ("Find movies with similar genres") and spec §8, which the claim
states.  The claim's per-element properties hold only vacuously of the
always-empty list. -/
theorem recommend_overlap_code_bug :
    getUserRecommendations
      [Movie.mk 2 100 "X" none none none none none 0 none [2, 4] none,
       Movie.mk 3 101 "Y" none none none none none 0 none [5] none]
      [FavoriteRow.mk 1 (Movie.mk 1 1 "A" none none none none none 0 none
        [1, 2] none)] 1 20 = [] ∧
    specOverlapSelection
      [Movie.mk 2 100 "X" none none none none none 0 none [2, 4] none,
       Movie.mk 3 101 "Y" none none none none none 0 none [5] none]
      [1, 2] [1] 20 =
      [movieToDict (Movie.mk 2 100 "X" none none none none none 0 none
        [2, 4] none)] ∧
    ([] : List MovieDict) ≠
      [movieToDict (Movie.mk 2 100 "X" none none none none none 0 none
        [2, 4] none)] :=
  ⟨rfl, rfl, by simp⟩

/-- C2: for a user with no favorites, or whose favorites' genre-tag union
is empty, `get_user_recommendations` on a healthy database returns exactly
the global fallback: the top `limit` movies ordered by popularity
descending then rating descending, as dictionaries. -/
theorem recommend_fallback_spec (movies : List Movie) (favorites : List FavoriteRow)
    (user : Nat) (limit : Nat)
    (h : favorites.filter (fun f => f.userId == user) = [] ∨
      (favorites.filter (fun f => f.userId == user)).flatMap
        (fun f => f.movie.genre_ids) = []) :
    getUserRecommendations movies favorites user limit =
      ((sortByPopVote movies).take limit).map movieToDict := by
  unfold getUserRecommendations getUserRecommendationsE recommendTryBody
    dbOracle getPopularFallbackE
  rcases h with h | h
  · simp only [h, List.isEmpty_nil, if_true]
  · by_cases hfe : (favorites.filter (fun f => f.userId == user)).isEmpty
    · simp only [hfe, if_true]
    · simp only [Bool.not_eq_true] at hfe
      simp [hfe, h]

/-- Witness for C2: a user with no favorites at all receives the global
fallback over a two-movie catalog. -/
theorem recommend_fallback_spec_witness :
    (([] : List FavoriteRow).filter (fun f => f.userId == 1) = [] ∨
      (([] : List FavoriteRow).filter (fun f => f.userId == 1)).flatMap
        (fun f => f.movie.genre_ids) = []) ∧
    getUserRecommendations
      [Movie.mk 2 100 "X" none none none none none 0 (some 3) [2] none,
       Movie.mk 3 101 "Y" none none none none none 0 (some 9) [5] none]
      [] 1 1 =
      ((sortByPopVote
        [Movie.mk 2 100 "X" none none none none none 0 (some 3) [2] none,
         Movie.mk 3 101 "Y" none none none none none 0 (some 9) [5] none]).take 1).map
        movieToDict :=
  ⟨Or.inl rfl, recommend_fallback_spec _ [] 1 1 (Or.inl rfl)⟩

/-- C3 counterexample: with the data layer down (every query raising), the
`except` handler's own call to `_get_popular_fallback` raises again, and
`get_user_recommendations` surfaces the error to its caller — refuting
"recommend never surfaces an error". -/
theorem recommend_error_surfaces_counterexample :
    getUserRecommendationsE
      (RecOracle.mk (Except.error "database connection lost")
        (Except.error "database connection lost")
        (Except.error "database connection lost")) 1 20 =
      Except.error "database connection lost" := rfl

/-- C3 (amended): provided the fallback query itself succeeds,
`get_user_recommendations` never surfaces an error, and whenever the
`try`-block (the three recommendation steps) raises, the result is exactly
the popularity-ordered fallback list. -/
theorem recommend_error_fallback_spec (o : RecOracle) (user limit : Nat)
    (ms : List Movie) (hfb : o.fallbackQuery = Except.ok ms) :
    (∃ r, getUserRecommendationsE o user limit = Except.ok r) ∧
    (∀ e, recommendTryBody o user limit = Except.error e →
      getUserRecommendationsE o user limit =
        Except.ok (((sortByPopVote ms).take limit).map movieToDict)) := by
  constructor
  · cases htry : recommendTryBody o user limit with
    | ok r => exact ⟨r, by unfold getUserRecommendationsE; rw [htry]⟩
    | error e =>
      refine ⟨((sortByPopVote ms).take limit).map movieToDict, ?_⟩
      unfold getUserRecommendationsE
      rw [htry]
      unfold getPopularFallbackE
      rw [hfb]
  · intro e he
    unfold getUserRecommendationsE
    rw [he]
    unfold getPopularFallbackE
    rw [hfb]

/-- Witness for C3 (amended): favorites query down but fallback healthy —
the caller still receives an `ok` result, namely the fallback list. -/
theorem recommend_error_fallback_spec_witness :
    (RecOracle.mk (Except.error "favorites query failed")
        (Except.error "favorites query failed")
        (Except.ok [])).fallbackQuery = Except.ok [] ∧
    ((∃ r, getUserRecommendationsE
        (RecOracle.mk (Except.error "favorites query failed")
          (Except.error "favorites query failed") (Except.ok [])) 1 20 =
        Except.ok r) ∧
      (∀ e, recommendTryBody
          (RecOracle.mk (Except.error "favorites query failed")
            (Except.error "favorites query failed") (Except.ok [])) 1 20 =
          Except.error e →
        getUserRecommendationsE
          (RecOracle.mk (Except.error "favorites query failed")
            (Except.error "favorites query failed") (Except.ok [])) 1 20 =
          Except.ok (((sortByPopVote []).take 20).map movieToDict))) :=
  ⟨rfl, recommend_error_fallback_spec _ 1 20 [] rfl⟩

/-- C10: `TMDbService.search_movies` with a query that is empty or
whitespace-only returns the fixed empty result page
`{'page': 1, 'results': [], 'total_pages': 0, 'total_results': 0}` without
issuing any upstream request (the result is the same for every `request`
function, so `_make_request` is never consulted). -/
theorem search_movies_blank_query (request : String → Int → Except String TmdbPage)
    (query : String) (page : Int) (h : pyStripEmpty query = true) :
    searchMovies request query page =
      Except.ok { page := 1, results := [], total_pages := 0, total_results := 0 } := by
  simp [searchMovies, h]

/-- Witness for C10 at a whitespace-only query mixing space, form feed,
vertical tab and no-break space (all removed by Python `str.strip()`) and a
request function that always fails: the blank-query short-circuit still
returns the fixed empty page. -/
theorem search_movies_blank_query_witness :
    pyStripEmpty " \x0c\x0b  " = true ∧
    searchMovies (fun _ _ => Except.error "network down") " \x0c\x0b  " 3 =
      Except.ok { page := 1, results := [], total_pages := 0, total_results := 0 } :=
  ⟨by decide,
   search_movies_blank_query (fun _ _ => Except.error "network down")
     " \x0c\x0b  " 3 (by decide)⟩

/-- C8: `_movie_to_dict` (the converter used by `get_user_recommendations`
and by the local tag-overlap path of `get_similar_movies`) reports a stored
`vote_average` or `popularity` of SQL NULL or exactly 0 as `None`, and
passes any non-null non-zero value through unchanged. -/
theorem movie_to_dict_zero_fields (m : Movie) :
    ((m.vote_average = some 0 ∨ m.vote_average = none) →
        (movieToDict m).vote_average = none) ∧
    ((m.popularity = some 0 ∨ m.popularity = none) →
        (movieToDict m).popularity = none) ∧
    (∀ v : ℚ, v ≠ 0 → m.vote_average = some v →
        (movieToDict m).vote_average = some v) ∧
    (∀ v : ℚ, v ≠ 0 → m.popularity = some v →
        (movieToDict m).popularity = some v) := by
  refine ⟨?_, ?_, ?_, ?_⟩
  · rintro (h | h) <;> simp [movieToDict, pyFloatOrNone, h]
  · rintro (h | h) <;> simp [movieToDict, pyFloatOrNone, h]
  · intro v hv h; simp [movieToDict, pyFloatOrNone, h, hv]
  · intro v hv h; simp [movieToDict, pyFloatOrNone, h, hv]

/-- Witness for C8 at a movie with `vote_average = 0` and `popularity = 5`:
the zero average is reported as `None`, the non-zero popularity as itself. -/
theorem movie_to_dict_zero_fields_witness :
    ((Movie.mk 1 10 "Z" none none none none (some 0) 3 (some 5) [1] none
        : Movie).vote_average = some 0 ∨
      (Movie.mk 1 10 "Z" none none none none (some 0) 3 (some 5) [1] none
        : Movie).vote_average = none) ∧
    (movieToDict (Movie.mk 1 10 "Z" none none none none (some 0) 3 (some 5)
        [1] none)).vote_average = none ∧
    (movieToDict (Movie.mk 1 10 "Z" none none none none (some 0) 3 (some 5)
        [1] none)).popularity = some 5 :=
  ⟨Or.inl rfl,
   (movie_to_dict_zero_fields _).1 (Or.inl rfl),
   (movie_to_dict_zero_fields _).2.2.2 5 (by decide) rfl⟩

/-- C9: when the TMDb fetch inside `get_similar_movies` returns a mapping
containing the key `'results'` (always a non-empty, hence truthy, dict),
the output is exactly that list truncated to `limit` and converted by
`_tmdb_result_to_dict` — independent of the local movie table, which is
never consulted; in particular an empty `'results'` list gives `[]`. -/
theorem similar_movies_provider_results (o : SimOracle) (movie_id : Int)
    (limit : Nat) (resp : TmdbRecResp) (rs : List TmdbResult)
    (h : o.tmdbRecs = Except.ok (some resp)) (hr : resp.results? = some rs) :
    getSimilarMovies o movie_id limit = (rs.take limit).map tmdbResultToDict ∧
    (∀ o' : SimOracle, o'.tmdbRecs = o.tmdbRecs →
      getSimilarMovies o' movie_id limit = getSimilarMovies o movie_id limit) := by
  have main : ∀ o'' : SimOracle, o''.tmdbRecs = Except.ok (some resp) →
      getSimilarMovies o'' movie_id limit = (rs.take limit).map tmdbResultToDict := by
    intro o'' h''
    simp [getSimilarMovies, h'', Except.bind, tmdbRespTruthy, hr]
  refine ⟨main o h, fun o' ho' => ?_⟩
  rw [main o' (ho'.trans h), main o h]

/-- Witness for C9: the provider returns `{'page': 1, 'results': []}` while
every local query would fail; the output is `[]`, built from the provider
list alone. -/
theorem similar_movies_provider_results_witness :
    (SimOracle.mk (Except.ok (some ⟨some [], 1⟩)) (Except.error "db down")
        (Except.error "db down")).tmdbRecs = Except.ok (some ⟨some [], 1⟩) ∧
    (⟨some [], 1⟩ : TmdbRecResp).results? = some [] ∧
    getSimilarMovies (SimOracle.mk (Except.ok (some ⟨some [], 1⟩))
      (Except.error "db down") (Except.error "db down")) 5 10 = [] :=
  ⟨rfl, rfl,
   (similar_movies_provider_results _ 5 10 ⟨some [], 1⟩ [] rfl rfl).1⟩

/-- The local path of `get_similar_movies` never produces a non-empty
list: its `genre_ids__overlap` filter is the key-transform comparison and
matches no rows, so the outcome is `ok []` (source found with empty
selection, or `DoesNotExist`) or the propagated query error. -/
theorem similarLocalFallback_cases (o : SimOracle) (movie_id : Int)
    (limit : Nat) :
    similarLocalFallback o movie_id limit = Except.ok [] ∨
    ∃ e, similarLocalFallback o movie_id limit = Except.error e := by
  unfold similarLocalFallback
  cases o.movieGet with
  | error e => exact Or.inr ⟨e, rfl⟩
  | ok mo =>
    cases mo with
    | none => exact Or.inl rfl
    | some movie =>
      cases o.movieQuery with
      | error e => exact Or.inr ⟨e, rfl⟩
      | ok movies =>
        left
        simp [jsonKeyTransformOverlapExact, jsonArrayKey, sortByPopVote]

/-- C6 counterexample: the provider fetch yields `None` (unavailable
without raising), the source movie S (genres {1}) exists locally with a
genuinely overlapping neighbour O (genres {1}) — the claim's "local
tag-overlap selection over the source movie's genre tags, excluding the
source movie" is `[O]` — yet `get_similar_movies` returns `[]`: the local
query's `genre_ids__overlap` on the `JSONField` is resolved as a key
transform and matches no rows.  (A raised provider error also returns `[]`
directly, skipping the local path entirely.) -/
theorem similar_movies_local_empty_counterexample :
    getSimilarMovies
      (SimOracle.mk (Except.ok none)
        (Except.ok (some (Movie.mk 1 1 "S" none none none none none 0 none
          [1] none)))
        (Except.ok [Movie.mk 2 2 "O" none none none none none 0 none
          [1] none])) 1 10 = [] ∧
    specOverlapSelection
      [Movie.mk 2 2 "O" none none none none none 0 none [1] none]
      [1] [1] 10 =
      [movieToDict (Movie.mk 2 2 "O" none none none none none 0 none
        [1] none)] ∧
    ([] : List MovieDict) ≠
      [movieToDict (Movie.mk 2 2 "O" none none none none none 0 none
        [1] none)] :=
  ⟨rfl, rfl, by simp⟩

/-- C6 (amended): `get_similar_movies` first attempts the provider fetch;
when the fetch yields a truthy mapping containing `'results'` that list is
returned truncated (see the C9 theorem); in every other case the result is
the empty list: a raised provider error is caught by the outer handler and
yields `[]` directly without consulting the local path, and when the
provider yields `None` or a mapping lacking `'results'` the local
genre-overlap fallback query runs but — an unregistered `JSONField` lookup
resolved as a key transform — matches no rows, so the local path also
yields `[]` (likewise on a missing source movie or a failure inside the
local path).  The global popularity fallback is never used. -/
theorem similar_movies_behavior_spec (o : SimOracle) (movie_id : Int)
    (limit : Nat) :
    (∀ e, o.tmdbRecs = Except.error e →
      getSimilarMovies o movie_id limit = []) ∧
    (∀ r, o.tmdbRecs = Except.ok r →
      (r = none ∨ ∃ resp, r = some resp ∧ resp.results? = none) →
      getSimilarMovies o movie_id limit = []) := by
  constructor
  · intro e he
    simp [getSimilarMovies, he]
  · intro r hr hshape
    have hbody : (match o.tmdbRecs with
        | Except.error e => Except.error e
        | Except.ok (some resp) =>
          if tmdbRespTruthy resp && resp.results?.isSome then
            Except.ok (((resp.results?.getD []).take limit).map tmdbResultToDict)
          else similarLocalFallback o movie_id limit
        | Except.ok none => similarLocalFallback o movie_id limit) =
        similarLocalFallback o movie_id limit := by
      rcases hshape with rfl | ⟨resp, rfl, hresp⟩
      · rw [hr]
      · rw [hr]
        simp [hresp]
    unfold getSimilarMovies
    rw [hbody]
    rcases similarLocalFallback_cases o movie_id limit with hl | ⟨e, hl⟩ <;>
      rw [hl]

/-- Witness for C6 (amended): provider returns `None` while the source
movie exists with a genuinely overlapping neighbour; the result is `[]`. -/
theorem similar_movies_behavior_spec_witness :
    (SimOracle.mk (Except.ok none)
        (Except.ok (some (Movie.mk 1 1 "S" none none none none none 0 none
          [1] none)))
        (Except.ok [Movie.mk 2 2 "O" none none none none none 0 none
          [1] none])).tmdbRecs = Except.ok none ∧
    getSimilarMovies
      (SimOracle.mk (Except.ok none)
        (Except.ok (some (Movie.mk 1 1 "S" none none none none none 0 none
          [1] none)))
        (Except.ok [Movie.mk 2 2 "O" none none none none none 0 none
          [1] none])) 1 10 = [] :=
  ⟨rfl,
   (similar_movies_behavior_spec
      (SimOracle.mk (Except.ok none)
        (Except.ok (some (Movie.mk 1 1 "S" none none none none none 0 none
          [1] none)))
        (Except.ok [Movie.mk 2 2 "O" none none none none none 0 none
          [1] none])) 1 10).2 none rfl (Or.inl rfl)⟩

/-- C7: creating a favorite for a `(user, movie)` pair that already has one
returns HTTP 400 with the descriptive detail message and leaves the rows
unchanged; and both the create and the delete operation preserve the
at-most-one-row-per-pair invariant enforced by `unique_together`. -/
theorem favorite_duplicate_spec (favs : List FavoriteMovieRow) (u mv : Nat)
    (notes : String) :
    ((∃ f ∈ favs, f.userId = u ∧ f.movieId = mv) →
       (favoriteAction favs u mv notes).1.status = 400 ∧
       (favoriteAction favs u mv notes).1.detail =
         some "Movie is already in your favorites." ∧
       (favoriteAction favs u mv notes).2 = favs) ∧
    (favUnique favs →
       favUnique (favoriteAction favs u mv notes).2 ∧
       favUnique (removeFavoriteAction favs u mv).2) := by
  constructor
  · rintro ⟨f, hf, hu, hm⟩
    have hany : favs.any (fun f => f.userId == u && f.movieId == mv) = true :=
      List.any_eq_true.mpr ⟨f, hf, by simp [hu, hm]⟩
    simp [favoriteAction, hany]
  · intro hinv
    constructor
    · unfold favoriteAction
      split
      · exact hinv
      · next hany =>
          have hfalse : favs.any (fun f => f.userId == u && f.movieId == mv) = false := by
            simpa using hany
          refine List.pairwise_append.mpr ⟨hinv, List.pairwise_singleton _ _, ?_⟩
          intro a ha b hb
          rcases List.mem_singleton.mp hb with rfl
          have hne := List.any_eq_false.mp hfalse a ha
          simp only [Bool.and_eq_true, beq_iff_eq] at hne
          rintro ⟨h1, h2⟩
          exact hne ⟨h1, h2⟩
    · unfold removeFavoriteAction
      dsimp only
      split
      · exact hinv
      · exact hinv.filter _

/-- Witness for C7 at a one-row table already containing `(1, 2)`: the
duplicate insert returns 400 with the message and the unchanged table, and
both operations preserve uniqueness. -/
theorem favorite_duplicate_spec_witness :
    (∃ f ∈ [FavoriteMovieRow.mk 1 2 ""], f.userId = 1 ∧ f.movieId = 2) ∧
    favUnique [FavoriteMovieRow.mk 1 2 ""] ∧
    (favoriteAction [FavoriteMovieRow.mk 1 2 ""] 1 2 "again").1.status = 400 ∧
    (favoriteAction [FavoriteMovieRow.mk 1 2 ""] 1 2 "again").2 =
      [FavoriteMovieRow.mk 1 2 ""] ∧
    favUnique (favoriteAction [FavoriteMovieRow.mk 1 2 ""] 1 2 "again").2 :=
  ⟨⟨FavoriteMovieRow.mk 1 2 "", by simp, rfl, rfl⟩,
   by simp [favUnique],
   ((favorite_duplicate_spec [FavoriteMovieRow.mk 1 2 ""] 1 2 "again").1
     ⟨FavoriteMovieRow.mk 1 2 "", by simp, rfl, rfl⟩).1,
   ((favorite_duplicate_spec [FavoriteMovieRow.mk 1 2 ""] 1 2 "again").1
     ⟨FavoriteMovieRow.mk 1 2 "", by simp, rfl, rfl⟩).2.2,
   ((favorite_duplicate_spec [FavoriteMovieRow.mk 1 2 ""] 1 2 "again").2
     (by simp [favUnique])).1⟩

